import Mathlib

/-!
Shallow embedding of the session-state synchronization controller
(`SessionManager` in
`frontend/src/components/views/session/manager.tsx`) of the reviewed
repository, together with the sidebar local-storage persistence logic.

Modelling conventions:
* React state (`session`, `sessions`, `isEditorOpen`, `editingSession`)
  becomes the record `MState`; a handler is a pure function from the
  pre-render state (the closure values captured by the handler) to the
  post state.
* Each asynchronous `sessionAPI` call is modelled by passing the call's
  outcome (`Except ApiError _`) as an explicit parameter; the list of
  requests the handler issues is returned so that claims about which
  calls are made can be stated.
* JavaScript truthiness of `user?.email` (false for a missing user, a
  missing email or the empty string) and of a numeric `id` (false for
  `undefined`/`null`/`0`) is modelled explicitly.
* `antd` notifications (`messageApi.error` / `messageApi.success`)
  become an emitted list of `Notice` values.
-/

/-- A session record. The backend-assigned identifier is `none` for a
not-yet-created draft; JavaScript `undefined`/`null` both map to `none`.
The remaining display/content fields are opaque and collapsed into
`name`. -/
structure Session where
  id : Option Int
  name : String
deriving DecidableEq, Repr

/-- JavaScript truthiness of `session.id`: `undefined`, `null` and `0`
are falsy. -/
def Session.idTruthy (s : Session) : Bool :=
  match s.id with
  | none => false
  | some n => n != 0

/-- Truthiness of `user?.email`: falsy when the user is absent, the
email is absent, or the email is the empty string. -/
def emailTruthy (userEmail : Option String) : Bool :=
  match userEmail with
  | none => false
  | some e => e != ""

/-- Error taxonomy of the `SessionAPIClient` collaborator (spec §7). -/
inductive ApiError
  | network
  | auth
  | notFound
  | validation
deriving DecidableEq, Repr

/-- A request issued to `sessionAPI`, recorded so claims about which
calls a handler makes can be stated. -/
inductive ApiCall
  | listSessions (userId : String)
  | createSession (userId : String)
  | updateSession (id : Int) (userId : String)
  | deleteSession (id : Int) (userId : String)
  | getSession (id : Int) (userId : String)
deriving DecidableEq, Repr

/-- A transient user-visible notification (`messageApi`). -/
inductive Notice
  | errorNote (msg : String)
  | successNote (msg : String)
deriving DecidableEq, Repr

/-- The React state of `SessionManager` relevant to the claims:
the `SessionStore` fields (`session`, `sessions`) and the editor state
(`isEditorOpen`, `editingSession`). -/
structure MState where
  session : Option Session
  sessions : List Session
  isEditorOpen : Bool
  editingSession : Option Session
deriving DecidableEq, Repr

/-- JavaScript `session?.id`: `undefined` when the current session is
absent, otherwise its (possibly absent) id. `===` on these values is
modelled by equality of `Option Int`, under which
`undefined === undefined` is true, matching JavaScript. -/
def MState.currentId (st : MState) : Option Int :=
  st.session.bind Session.id

/-- Embedding of `fetchSessions`: on success replace the list and, if no
session is selected and the list is non-empty, select index 0; on
failure emit an error notification and leave the state unchanged. -/
def fetchSessions (userEmail : Option String) (st : MState)
    (apiResult : Except ApiError (List Session)) :
    MState × List Notice × List ApiCall :=
  match userEmail with
  | none => (st, [], [])
  | some e =>
    if e = "" then (st, [], [])
    else
      match apiResult with
      | .ok data =>
        let st1 := { st with sessions := data }
        let st2 :=
          if st.session = none ∧ 0 < data.length then
            { st1 with session := data.head? }
          else st1
        (st2, [], [ApiCall.listSessions e])
      | .error _ =>
        (st, [Notice.errorNote "Error loading sessions"],
          [ApiCall.listSessions e])

/-- Embedding of `handleSaveSession`: update path when the draft id is
truthy, create path otherwise; on success close the editor; on failure
emit an error notification and leave everything unchanged. -/
def handleSaveSession (userEmail : Option String) (st : MState)
    (sessionData : Session) (apiResult : Except ApiError Session) :
    MState × List Notice × List ApiCall :=
  match userEmail with
  | none => (st, [], [])
  | some e =>
    if e = "" then (st, [], [])
    else
      match sessionData.id with
      | some n =>
        if n ≠ 0 then
          match apiResult with
          | .ok updated =>
            let st1 := { st with
              sessions := st.sessions.map
                (fun (s : Session) =>
                  if s.id = updated.id then updated else s) }
            let st2 :=
              if st.currentId = updated.id then
                { st1 with session := some updated }
              else st1
            ({ st2 with isEditorOpen := false, editingSession := none },
              [], [ApiCall.updateSession n e])
          | .error _ =>
            (st, [Notice.errorNote "Error saving session"],
              [ApiCall.updateSession n e])
        else
          match apiResult with
          | .ok created =>
            let st1 := { st with
              sessions := created :: st.sessions
              session := some created
              isEditorOpen := false
              editingSession := none }
            (st1, [], [ApiCall.createSession e])
          | .error _ =>
            (st, [Notice.errorNote "Error saving session"],
              [ApiCall.createSession e])
      | none =>
        match apiResult with
        | .ok created =>
          let st1 := { st with
            sessions := created :: st.sessions
            session := some created
            isEditorOpen := false
            editingSession := none }
          (st1, [], [ApiCall.createSession e])
        | .error _ =>
          (st, [Notice.errorNote "Error saving session"],
            [ApiCall.createSession e])

/-- Embedding of `handleDeleteSession`. On success the list is filtered
by `s.id !== sessionId`; the reassignment of the current session uses
the handler's closure value `sessions` (the pre-delete list), exactly as
the source does: the condition reads `sessions.length === 0` on the old
list and `setSession(sessions[0] || null)` takes the old head. -/
def handleDeleteSession (userEmail : Option String) (st : MState)
    (sessionId : Int) (apiResult : Except ApiError Unit) :
    MState × List Notice × List ApiCall :=
  match userEmail with
  | none => (st, [], [])
  | some e =>
    if e = "" then (st, [], [])
    else
      match apiResult with
      | .ok _ =>
        let st1 := { st with
          sessions := st.sessions.filter (fun s => s.id ≠ some sessionId) }
        let st2 :=
          if st.currentId = some sessionId ∨ st.sessions.length = 0 then
            { st1 with session := st.sessions.head? }
          else st1
        (st2, [Notice.successNote "Session deleted"],
          [ApiCall.deleteSession sessionId e])
      | .error _ =>
        (st, [Notice.errorNote "Error deleting session"],
          [ApiCall.deleteSession sessionId e])

/-- Embedding of `handleSelectSession`: guarded by both `user?.email`
and `selectedSession.id` truthiness; on success the record returned by
`getSession` becomes current; on failure the selection is unchanged. -/
def handleSelectSession (userEmail : Option String) (st : MState)
    (selectedSession : Session) (apiResult : Except ApiError Session) :
    MState × List Notice × List ApiCall :=
  match userEmail with
  | none => (st, [], [])
  | some e =>
    if e = "" then (st, [], [])
    else
      match selectedSession.id with
      | none => (st, [], [])
      | some n =>
        if n = 0 then (st, [], [])
        else
          match apiResult with
          | .ok data =>
            ({ st with session := some data }, [],
              [ApiCall.getSession n e])
          | .error _ =>
            (st, [Notice.errorNote "Error loading session"],
              [ApiCall.getSession n e])

/-- A JSON value as relevant to the sidebar preference: the source
stores `JSON.stringify(isSidebarOpen)` (a boolean literal) under the key
`"sessionSidebar"` and reads it back with `JSON.parse`. The model
covers the JSON literals that can appear there; everything else is
unparsable. -/
inductive JsonLite
  | bool (b : Bool)
  | null
  | num (n : Nat)
deriving DecidableEq, Repr

/-- JSON.stringify on a boolean. -/
def jsonStringifyBool (b : Bool) : String :=
  if b then "true" else "false"

/-- JSON.parse restricted to the literals of `JsonLite`; `none` models
a `SyntaxError` thrown by `JSON.parse`. -/
def jsonParseLite (s : String) : Option JsonLite :=
  if s = "true" then some (JsonLite.bool true)
  else if s = "false" then some (JsonLite.bool false)
  else if s = "null" then some JsonLite.null
  else if s.toList ≠ [] ∧ s.toList.all Char.isDigit then
    some (JsonLite.num
      (s.toList.foldl (fun n c => n * 10 + (c.toNat - 48)) 0))
  else none

/-- Embedding of the `isSidebarOpen` initializer: read the stored value
under "sessionSidebar"; if the key is absent (`stored === null`) the
default is `true`; otherwise the value is passed to `JSON.parse`, whose
failure (modelled as `Except.error ()`) propagates — the source has no
try/catch around it. -/
def readSidebar (stored : Option String) : Except Unit JsonLite :=
  match stored with
  | none => Except.ok (JsonLite.bool true)
  | some s =>
    match jsonParseLite s with
    | some v => Except.ok v
    | none => Except.error ()

/-- Embedding of the persistence effect: on every change of
`isSidebarOpen` the source writes `JSON.stringify(isSidebarOpen)` under
the fixed key. -/
def writeSidebar (b : Bool) : String :=
  jsonStringifyBool b

/-- An operation applied through `SessionManager` for the
identifier-uniqueness invariant: a save (create or update, as
`handleSaveSession` decides from the draft's id) or a delete, each
carrying the user identifier and the outcome of its API call. -/
inductive SMOp
  | save (userEmail : Option String) (sessionData : Session)
      (apiResult : Except ApiError Session)
  | delete (userEmail : Option String) (sessionId : Int)
      (apiResult : Except ApiError Unit)

/-- State transformation of one operation (the state component of the
corresponding handler). -/
def applyOp (st : MState) (op : SMOp) : MState :=
  match op with
  | .save u d r => (handleSaveSession u st d r).1
  | .delete u i r => (handleDeleteSession u st i r).1

/-- The backend's id-uniqueness contract (spec data model: a session's
identifier is unique, assigned by the backend): when an operation is a
create that succeeds, the created session's identifier is not already
in the list. All other operations need no assumption. -/
def FreshOk (st : MState) (op : SMOp) : Prop :=
  match op with
  | .save u d (.ok created) =>
    emailTruthy u = true → d.idTruthy = false →
      created.id ∉ st.sessions.map Session.id
  | _ => True

/-- States reachable from `st` by a sequence of save/delete operations
whose create responses respect the backend's id-uniqueness contract. -/
inductive Reach : MState → MState → Prop
  | refl (st : MState) : Reach st st
  | step {st st' : MState} (op : SMOp) (h : Reach st st')
      (hf : FreshOk st' op) : Reach st (applyOp st' op)

/-! Helper lemmas about the guards. -/

theorem emailTruthy_some_iff (e : String) :
    emailTruthy (some e) = true ↔ e ≠ "" := by
  simp [emailTruthy]

theorem idTruthy_eq_false_iff (s : Session) :
    s.idTruthy = false ↔ s.id = none ∨ s.id = some 0 := by
  cases h : s.id with
  | none => simp [Session.idTruthy, h]
  | some n => simp [Session.idTruthy, h]

/-- Closed-form behavior of `handleSaveSession` on the update path
(truthy draft id, successful API call). -/
theorem handleSaveSession_update_ok (e : String) (he : e ≠ "")
    (st : MState) (d : Session) (n : Int) (hd : d.id = some n)
    (hn : n ≠ 0) (updated : Session) :
    handleSaveSession (some e) st d (Except.ok updated)
      = (⟨if st.currentId = updated.id then some updated else st.session,
          st.sessions.map
            (fun s => if s.id = updated.id then updated else s),
          false, none⟩,
         [], [ApiCall.updateSession n e]) := by
  simp only [handleSaveSession, hd, if_neg he, if_pos hn]
  by_cases hc : st.currentId = updated.id <;> simp [hc]

/-- Closed-form behavior of `handleSaveSession` on the create path
(falsy draft id, successful API call). -/
theorem handleSaveSession_create_ok (e : String) (he : e ≠ "")
    (st : MState) (d : Session) (hid : d.idTruthy = false)
    (created : Session) :
    handleSaveSession (some e) st d (Except.ok created)
      = (⟨some created, created :: st.sessions, false, none⟩,
         [], [ApiCall.createSession e]) := by
  rcases (idTruthy_eq_false_iff d).1 hid with h | h <;>
    simp [handleSaveSession, h, if_neg he]

/-- On a failed API call, `handleSaveSession` leaves the state unchanged
and emits the error notification. -/
theorem handleSaveSession_error (e : String) (he : e ≠ "")
    (st : MState) (d : Session) (err : ApiError) :
    (handleSaveSession (some e) st d (Except.error err)).1 = st
    ∧ (handleSaveSession (some e) st d (Except.error err)).2.1
        = [Notice.errorNote "Error saving session"] := by
  cases hd : d.id with
  | none => simp [handleSaveSession, hd, if_neg he]
  | some n =>
    by_cases hn : n = 0 <;> simp [handleSaveSession, hd, if_neg he, hn]

/-- Closed-form behavior of `handleDeleteSession` on a successful API
call: note that both the emptiness test and the reassigned head are
taken from the pre-delete list, exactly as in the source. -/
theorem handleDeleteSession_ok (e : String) (he : e ≠ "")
    (st : MState) (i : Int) :
    handleDeleteSession (some e) st i (Except.ok ())
      = (⟨if st.currentId = some i ∨ st.sessions.length = 0 then
            st.sessions.head?
          else st.session,
          st.sessions.filter (fun s => s.id ≠ some i),
          st.isEditorOpen, st.editingSession⟩,
         [Notice.successNote "Session deleted"],
         [ApiCall.deleteSession i e]) := by
  simp only [handleDeleteSession, if_neg he]
  split
  next _ => rfl
  next _ => rfl

/-- On a failed API call, `handleDeleteSession` leaves the state
unchanged and emits the error notification. -/
theorem handleDeleteSession_error (e : String) (he : e ≠ "")
    (st : MState) (i : Int) (err : ApiError) :
    handleDeleteSession (some e) st i (Except.error err)
      = (st, [Notice.errorNote "Error deleting session"],
         [ApiCall.deleteSession i e]) := by
  simp [handleDeleteSession, if_neg he]

/-- Closed-form behavior of `fetchSessions` on a successful API call. -/
theorem fetchSessions_ok (e : String) (he : e ≠ "") (st : MState)
    (data : List Session) :
    fetchSessions (some e) st (Except.ok data)
      = (⟨if st.session = none ∧ 0 < data.length then data.head?
          else st.session,
          data, st.isEditorOpen, st.editingSession⟩,
         [], [ApiCall.listSessions e]) := by
  simp only [fetchSessions, if_neg he]
  split
  next _ => rfl
  next _ => rfl

/-- On a failed API call, `fetchSessions` leaves the state unchanged
and emits the error notification. -/
theorem fetchSessions_error (e : String) (he : e ≠ "") (st : MState)
    (err : ApiError) :
    fetchSessions (some e) st (Except.error err)
      = (st, [Notice.errorNote "Error loading sessions"],
         [ApiCall.listSessions e]) := by
  simp [fetchSessions, if_neg he]

/-- Closed-form behavior of `handleSelectSession` when both guards
pass. -/
theorem handleSelectSession_run (e : String) (he : e ≠ "") (st : MState)
    (b : Session) (n : Int) (hb : b.id = some n) (hn : n ≠ 0)
    (r : Except ApiError Session) :
    handleSelectSession (some e) st b r
      = (match r with
         | .ok data =>
           (⟨some data, st.sessions, st.isEditorOpen, st.editingSession⟩,
            [], [ApiCall.getSession n e])
         | .error _ =>
           (st, [Notice.errorNote "Error loading session"],
            [ApiCall.getSession n e])) := by
  cases r <;> simp [handleSelectSession, hb, if_neg he, hn]

/-! Claim theorems. -/

/-- C1: evaluation of the code at the spec's own scenario
(list = [A, B], current = A, delete(A) succeeds). The entry A is indeed
removed from the list, but the current session is set to
`sessions[0] || null` of the handler's stale closure — the pre-delete
head A, i.e. the session just deleted — not the new first element B the
claim requires. -/
theorem c1_delete_current_stale_head :
    (handleDeleteSession (some "user@example.com")
        ⟨some ⟨some 1, "A"⟩, [⟨some 1, "A"⟩, ⟨some 2, "B"⟩], false, none⟩
        1 (Except.ok ())).1
      = ⟨some ⟨some 1, "A"⟩, [⟨some 2, "B"⟩], false, none⟩
    ∧ (handleDeleteSession (some "user@example.com")
        ⟨some ⟨some 1, "A"⟩, [⟨some 1, "A"⟩, ⟨some 2, "B"⟩], false, none⟩
        1 (Except.ok ())).1.session ≠ some ⟨some 2, "B"⟩ := by
  constructor
  · rfl
  · decide

/-- C3: after a successful update via `handleSaveSession` with a draft
carrying a truthy identifier, every list entry whose identifier equals
the updated session's identifier is the very session returned by
`updateSession`, the list is the pointwise replacement of the old list,
and if the current session has that identifier the current reference is
that same returned value (and is unchanged otherwise). -/
theorem c3_update_referential_consistency (e : String) (st : MState)
    (d updated : Session) (he : e ≠ "") (n : Int) (hd : d.id = some n)
    (hn : n ≠ 0) :
    (handleSaveSession (some e) st d (Except.ok updated)).1.sessions
      = st.sessions.map (fun s => if s.id = updated.id then updated else s)
    ∧ (∀ s ∈ (handleSaveSession (some e) st d (Except.ok updated)).1.sessions,
        s.id = updated.id → s = updated)
    ∧ (st.currentId = updated.id →
        (handleSaveSession (some e) st d (Except.ok updated)).1.session
          = some updated)
    ∧ (st.currentId ≠ updated.id →
        (handleSaveSession (some e) st d (Except.ok updated)).1.session
          = st.session) := by
  rw [handleSaveSession_update_ok e he st d n hd hn updated]
  refine ⟨rfl, ?_, ?_, ?_⟩
  · intro s hs hsid
    rcases List.mem_map.1 hs with ⟨t, _, rfl⟩
    by_cases h : t.id = updated.id
    · simp [h]
    · simp only [if_neg h] at hsid ⊢
      exact absurd hsid h
  · intro hc
    simp [hc]
  · intro hc
    simp [if_neg hc]

/-- C3 witness: the update scenario at a concrete state. -/
theorem c3_update_referential_consistency_witness :
    ("u@x" : String) ≠ ""
    ∧ (Session.mk (some 1) "draft").id = some 1
    ∧ (1 : Int) ≠ 0
    ∧ (handleSaveSession (some "u@x")
        ⟨some ⟨some 1, "A"⟩, [⟨some 1, "A"⟩, ⟨some 2, "B"⟩], false, none⟩
        ⟨some 1, "draft"⟩ (Except.ok ⟨some 1, "A2"⟩)).1.session
        = some ⟨some 1, "A2"⟩ := by
  refine ⟨by decide, rfl, by decide, ?_⟩
  exact (c3_update_referential_consistency "u@x"
    ⟨some ⟨some 1, "A"⟩, [⟨some 1, "A"⟩, ⟨some 2, "B"⟩], false, none⟩
    ⟨some 1, "draft"⟩ ⟨some 1, "A2"⟩ (by decide) 1 rfl
    (by decide)).2.2.1 (by decide)

/-- C4: after a successful create via `handleSaveSession` with a draft
whose identifier is falsy, the session returned by `createSession` is
prepended (it is the first element), it becomes the current session and
the editor is closed; on create failure the whole state (list, current
and editor flags) is unchanged and the error notification is emitted. -/
theorem c4_create_prepend_and_failure (e : String) (st : MState)
    (d : Session) (he : e ≠ "") (hid : d.idTruthy = false)
    (r : Except ApiError Session) :
    (∀ created, r = Except.ok created →
      (handleSaveSession (some e) st d r).1
        = ⟨some created, created :: st.sessions, false, none⟩)
    ∧ (∀ err, r = Except.error err →
        (handleSaveSession (some e) st d r).1 = st
        ∧ (handleSaveSession (some e) st d r).2.1
            = [Notice.errorNote "Error saving session"]) := by
  constructor
  · intro created hr
    subst hr
    rw [handleSaveSession_create_ok e he st d hid created]
  · intro err hr
    subst hr
    exact handleSaveSession_error e he st d err

/-- C4 witness: the spec scenario list = [], create(draft) succeeds
returning C, and a failure case leaving the state unchanged. -/
theorem c4_create_prepend_and_failure_witness :
    ("u@x" : String) ≠ ""
    ∧ (Session.mk none "draft").idTruthy = false
    ∧ (handleSaveSession (some "u@x") ⟨none, [], false, none⟩
        ⟨none, "draft"⟩ (Except.ok ⟨some 3, "C"⟩)).1
        = ⟨some ⟨some 3, "C"⟩, [⟨some 3, "C"⟩], false, none⟩
    ∧ (handleSaveSession (some "u@x") ⟨none, [], true, none⟩
        ⟨none, "draft"⟩ (Except.error ApiError.network)).1
        = ⟨none, [], true, none⟩ := by
  refine ⟨by decide, rfl, ?_, ?_⟩
  · exact (c4_create_prepend_and_failure "u@x" ⟨none, [], false, none⟩
      ⟨none, "draft"⟩ (by decide) rfl (Except.ok ⟨some 3, "C"⟩)).1
      ⟨some 3, "C"⟩ rfl
  · exact ((c4_create_prepend_and_failure "u@x" ⟨none, [], true, none⟩
      ⟨none, "draft"⟩ (by decide) rfl
      (Except.error ApiError.network)).2 ApiError.network rfl).1

/-- C7: when `fetchSessions` succeeds the list is replaced by the data
returned from `listSessions`, and if no session was selected and the
data is non-empty its head (index 0) becomes current, while an existing
selection (or an empty response) leaves the current session unchanged;
on failure the state is unchanged and the error notification is
emitted. In both cases exactly one `listSessions` request is issued. -/
theorem c7_fetch_reconciliation (e : String) (st : MState)
    (he : e ≠ "") (r : Except ApiError (List Session)) :
    (∀ data, r = Except.ok data →
      (fetchSessions (some e) st r).1.sessions = data
      ∧ (st.session = none → 0 < data.length →
          (fetchSessions (some e) st r).1.session = data.head?)
      ∧ (st.session ≠ none ∨ data.length = 0 →
          (fetchSessions (some e) st r).1.session = st.session)
      ∧ (fetchSessions (some e) st r).2.2 = [ApiCall.listSessions e])
    ∧ (∀ err, r = Except.error err →
        (fetchSessions (some e) st r).1 = st
        ∧ (fetchSessions (some e) st r).2.1
            = [Notice.errorNote "Error loading sessions"]
        ∧ (fetchSessions (some e) st r).2.2 = [ApiCall.listSessions e]) := by
  constructor
  · intro data hr
    subst hr
    rw [fetchSessions_ok e he st data]
    refine ⟨rfl, ?_, ?_, rfl⟩
    · intro h1 h2
      simp [h1, h2]
    · intro h
      rcases h with h | h
      · rw [if_neg]
        intro hc
        exact h hc.1
      · rw [if_neg]
        intro hc
        omega
  · intro err hr
    subst hr
    rw [fetchSessions_error e he st err]
    exact ⟨rfl, rfl, rfl⟩

/-- C7 witness: a fetch into an empty store selects the head of the
returned list. -/
theorem c7_fetch_reconciliation_witness :
    ("u@x" : String) ≠ ""
    ∧ (fetchSessions (some "u@x") ⟨none, [], false, none⟩
        (Except.ok [⟨some 2, "B"⟩, ⟨some 1, "A"⟩])).1.session
        = some ⟨some 2, "B"⟩ := by
  refine ⟨by decide, ?_⟩
  exact ((c7_fetch_reconciliation "u@x" ⟨none, [], false, none⟩ (by decide)
    (Except.ok [⟨some 2, "B"⟩, ⟨some 1, "A"⟩])).1
    [⟨some 2, "B"⟩, ⟨some 1, "A"⟩] rfl).2.1 rfl (by decide)

/-- C8: for a session whose identifier is truthy, `handleSelectSession`
issues exactly the request getSession(id, user); on success the full
returned record (not the argument) becomes the current session, and on
failure the current selection and the rest of the state are unchanged. -/
theorem c8_select_full_record (e : String) (st : MState) (b : Session)
    (he : e ≠ "") (n : Int) (hb : b.id = some n) (hn : n ≠ 0)
    (r : Except ApiError Session) :
    (handleSelectSession (some e) st b r).2.2 = [ApiCall.getSession n e]
    ∧ (∀ data, r = Except.ok data →
        (handleSelectSession (some e) st b r).1
          = ⟨some data, st.sessions, st.isEditorOpen, st.editingSession⟩)
    ∧ (∀ err, r = Except.error err →
        (handleSelectSession (some e) st b r).1 = st) := by
  rw [handleSelectSession_run e he st b n hb hn r]
  cases r with
  | ok data =>
    refine ⟨rfl, ?_, ?_⟩
    · intro d hd
      cases hd
      rfl
    · intro err herr
      cases herr
  | error err =>
    refine ⟨rfl, ?_, ?_⟩
    · intro d hd
      cases hd
    · intro err2 herr
      cases herr
      rfl

/-- C8 witness: the spec scenario select(B) with B.id = 2 issues
getSession(2, user), and a failed call leaves the prior selection. -/
theorem c8_select_full_record_witness :
    ("u@x" : String) ≠ ""
    ∧ (Session.mk (some 2) "B").id = some 2
    ∧ (2 : Int) ≠ 0
    ∧ (handleSelectSession (some "u@x")
        ⟨some ⟨some 1, "A"⟩, [⟨some 1, "A"⟩, ⟨some 2, "B"⟩], false, none⟩
        ⟨some 2, "B"⟩ (Except.error ApiError.network)).2.2
        = [ApiCall.getSession 2 "u@x"]
    ∧ (handleSelectSession (some "u@x")
        ⟨some ⟨some 1, "A"⟩, [⟨some 1, "A"⟩, ⟨some 2, "B"⟩], false, none⟩
        ⟨some 2, "B"⟩ (Except.error ApiError.network)).1
        = ⟨some ⟨some 1, "A"⟩, [⟨some 1, "A"⟩, ⟨some 2, "B"⟩], false, none⟩ := by
  refine ⟨by decide, rfl, by decide, ?_, ?_⟩
  · exact (c8_select_full_record "u@x"
      ⟨some ⟨some 1, "A"⟩, [⟨some 1, "A"⟩, ⟨some 2, "B"⟩], false, none⟩
      ⟨some 2, "B"⟩ (by decide) 2 rfl (by decide)
      (Except.error ApiError.network)).1
  · exact (c8_select_full_record "u@x"
      ⟨some ⟨some 1, "A"⟩, [⟨some 1, "A"⟩, ⟨some 2, "B"⟩], false, none⟩
      ⟨some 2, "B"⟩ (by decide) 2 rfl (by decide)
      (Except.error ApiError.network)).2.2 ApiError.network rfl

/-- C9: when `user?.email` is falsy (missing user, missing email or
empty email), every handler returns immediately: no API request is
issued, the state is unchanged, and no notification is emitted. -/
theorem c9_email_guard_noop (u : Option String)
    (hu : emailTruthy u = false) (st : MState)
    (rl : Except ApiError (List Session)) (d : Session)
    (rs : Except ApiError Session) (i : Int)
    (rd : Except ApiError Unit) (b : Session)
    (rg : Except ApiError Session) :
    fetchSessions u st rl = (st, [], [])
    ∧ handleSaveSession u st d rs = (st, [], [])
    ∧ handleDeleteSession u st i rd = (st, [], [])
    ∧ handleSelectSession u st b rg = (st, [], []) := by
  cases u with
  | none =>
    exact ⟨rfl, rfl, rfl, rfl⟩
  | some e =>
    have he : e = "" := by
      by_contra h
      rw [(emailTruthy_some_iff e).2 h] at hu
      cases hu
    subst he
    exact ⟨rfl, rfl, rfl, rfl⟩

/-- C9 witness: with an absent email and with an empty email, all four
handlers are silent no-ops on a concrete state. -/
theorem c9_email_guard_noop_witness :
    emailTruthy (some "") = false
    ∧ fetchSessions (some "") ⟨none, [⟨some 1, "A"⟩], false, none⟩
        (Except.ok [⟨some 2, "B"⟩])
        = (⟨none, [⟨some 1, "A"⟩], false, none⟩, [], [])
    ∧ handleDeleteSession none ⟨none, [⟨some 1, "A"⟩], false, none⟩ 1
        (Except.ok ())
        = (⟨none, [⟨some 1, "A"⟩], false, none⟩, [], []) := by
  refine ⟨rfl, ?_, ?_⟩
  · exact (c9_email_guard_noop (some "") rfl
      ⟨none, [⟨some 1, "A"⟩], false, none⟩ (Except.ok [⟨some 2, "B"⟩])
      ⟨none, "d"⟩ (Except.ok ⟨some 9, "X"⟩) 1 (Except.ok ())
      ⟨some 1, "A"⟩ (Except.ok ⟨some 1, "A"⟩)).1
  · exact (c9_email_guard_noop none rfl
      ⟨none, [⟨some 1, "A"⟩], false, none⟩ (Except.ok [⟨some 2, "B"⟩])
      ⟨none, "d"⟩ (Except.ok ⟨some 9, "X"⟩) 1 (Except.ok ())
      ⟨some 1, "A"⟩ (Except.ok ⟨some 1, "A"⟩)).2.2.1

/-- C10: when the selected session's identifier is falsy (`undefined`,
`null` or `0`), `handleSelectSession` is a silent no-op for every user
value: no request, no state change, no notification. -/
theorem c10_select_falsy_id_noop (u : Option String) (st : MState)
    (s : Session) (hid : s.idTruthy = false)
    (r : Except ApiError Session) :
    handleSelectSession u st s r = (st, [], []) := by
  cases u with
  | none => rfl
  | some e =>
    by_cases he : e = ""
    · subst he
      rfl
    · rcases (idTruthy_eq_false_iff s).1 hid with h | h <;>
        simp [handleSelectSession, h, if_neg he]

/-- C10 witness: selecting a draft without id and a session with id 0
are no-ops on a concrete state. -/
theorem c10_select_falsy_id_noop_witness :
    (Session.mk none "draft").idTruthy = false
    ∧ (Session.mk (some 0) "zero").idTruthy = false
    ∧ handleSelectSession (some "u@x")
        ⟨some ⟨some 1, "A"⟩, [⟨some 1, "A"⟩], false, none⟩
        ⟨none, "draft"⟩ (Except.ok ⟨some 7, "Z"⟩)
        = (⟨some ⟨some 1, "A"⟩, [⟨some 1, "A"⟩], false, none⟩, [], [])
    ∧ handleSelectSession (some "u@x")
        ⟨some ⟨some 1, "A"⟩, [⟨some 1, "A"⟩], false, none⟩
        ⟨some 0, "zero"⟩ (Except.ok ⟨some 7, "Z"⟩)
        = (⟨some ⟨some 1, "A"⟩, [⟨some 1, "A"⟩], false, none⟩, [], []) := by
  refine ⟨rfl, by decide, ?_, ?_⟩
  · exact c10_select_falsy_id_noop (some "u@x")
      ⟨some ⟨some 1, "A"⟩, [⟨some 1, "A"⟩], false, none⟩
      ⟨none, "draft"⟩ rfl (Except.ok ⟨some 7, "Z"⟩)
  · exact c10_select_falsy_id_noop (some "u@x")
      ⟨some ⟨some 1, "A"⟩, [⟨some 1, "A"⟩], false, none⟩
      ⟨some 0, "zero"⟩ (by decide) (Except.ok ⟨some 7, "Z"⟩)

/-- C5: for every operation with a truthy user email, a failed API call
is absorbed inside the handler: the state is returned exactly as it was
before the call, a transient error notification is emitted, and —
because each handler is a total function into states — the failure
never escapes to the rendering tree. For select the guard on the
session id must also pass, since otherwise no call is made at all. -/
theorem c5_failures_contained (e : String) (he : e ≠ "") (st : MState)
    (err : ApiError) (d : Session) (i : Int) (b : Session) (n : Int) :
    ((fetchSessions (some e) st (Except.error err)).1 = st
      ∧ (fetchSessions (some e) st (Except.error err)).2.1
          = [Notice.errorNote "Error loading sessions"])
    ∧ ((handleSaveSession (some e) st d (Except.error err)).1 = st
      ∧ (handleSaveSession (some e) st d (Except.error err)).2.1
          = [Notice.errorNote "Error saving session"])
    ∧ ((handleDeleteSession (some e) st i (Except.error err)).1 = st
      ∧ (handleDeleteSession (some e) st i (Except.error err)).2.1
          = [Notice.errorNote "Error deleting session"])
    ∧ (b.id = some n → n ≠ 0 →
        (handleSelectSession (some e) st b (Except.error err)).1 = st
        ∧ (handleSelectSession (some e) st b (Except.error err)).2.1
            = [Notice.errorNote "Error loading session"]) := by
  refine ⟨?_, handleSaveSession_error e he st d err, ?_, ?_⟩
  · rw [fetchSessions_error e he st err]
    exact ⟨rfl, rfl⟩
  · rw [handleDeleteSession_error e he st i err]
    exact ⟨rfl, rfl⟩
  · intro hb hn
    rw [handleSelectSession_run e he st b n hb hn (Except.error err)]
    exact ⟨rfl, rfl⟩

/-- C5 witness: all four handlers at a concrete state and a concrete
network failure leave the state intact and emit an error notification. -/
theorem c5_failures_contained_witness :
    ("u@x" : String) ≠ ""
    ∧ (fetchSessions (some "u@x")
        ⟨some ⟨some 1, "A"⟩, [⟨some 1, "A"⟩], true, none⟩
        (Except.error ApiError.network)).1
        = ⟨some ⟨some 1, "A"⟩, [⟨some 1, "A"⟩], true, none⟩
    ∧ (handleDeleteSession (some "u@x")
        ⟨some ⟨some 1, "A"⟩, [⟨some 1, "A"⟩], true, none⟩ 1
        (Except.error ApiError.network)).2.1
        = [Notice.errorNote "Error deleting session"] := by
  refine ⟨by decide, ?_, ?_⟩
  · exact (c5_failures_contained "u@x" (by decide)
      ⟨some ⟨some 1, "A"⟩, [⟨some 1, "A"⟩], true, none⟩
      ApiError.network ⟨none, "d"⟩ 1 ⟨some 2, "B"⟩ 2).1.1
  · exact (c5_failures_contained "u@x" (by decide)
      ⟨some ⟨some 1, "A"⟩, [⟨some 1, "A"⟩], true, none⟩
      ApiError.network ⟨none, "d"⟩ 1 ⟨some 2, "B"⟩ 2).2.2.1.2

/-- Embedding of the sidebar toggle: `setIsSidebarOpen(!isSidebarOpen)`
followed by the persistence effect, which writes the resulting boolean
under the fixed key. -/
def toggleSidebar (b : Bool) : Bool × String :=
  (!b, writeSidebar (!b))

/-- C6 counterexample: the claim says an unparsable stored value makes
the initial read default to `true`; in the source the stored value goes
straight into `JSON.parse` with no try/catch, so on the unparsable
string "x" the initializer raises a parse error instead of returning
`true`. -/
theorem c6_unparsable_throws_counterexample :
    readSidebar (some "x") = Except.error ()
    ∧ readSidebar (some "x") ≠ Except.ok (JsonLite.bool true) := by
  have h : readSidebar (some "x") = Except.error () := rfl
  refine ⟨h, ?_⟩
  rw [h]
  intro hc
  cases hc

/-- C6 (amended): the sidebar open-state round-trips through local
storage under the fixed key — every toggle writes the resulting boolean,
reading a previously written value returns that boolean, and an absent
key defaults to open (`true`); an unparsable stored value, however,
raises a parse error rather than defaulting. -/
theorem c6_sidebar_roundtrip_amended :
    (∀ b : Bool, (toggleSidebar b).2 = writeSidebar (!b))
    ∧ (∀ b : Bool,
        readSidebar (some (writeSidebar b)) = Except.ok (JsonLite.bool b))
    ∧ readSidebar none = Except.ok (JsonLite.bool true) := by
  refine ⟨fun b => rfl, fun b => ?_, rfl⟩
  cases b <;> rfl

/-- C6 witness: both booleans round-trip and the absent key defaults to
open. -/
theorem c6_sidebar_roundtrip_amended_witness :
    readSidebar (some (writeSidebar true)) = Except.ok (JsonLite.bool true)
    ∧ readSidebar (some (writeSidebar false))
        = Except.ok (JsonLite.bool false)
    ∧ readSidebar none = Except.ok (JsonLite.bool true) :=
  ⟨c6_sidebar_roundtrip_amended.2.1 true,
   c6_sidebar_roundtrip_amended.2.1 false,
   c6_sidebar_roundtrip_amended.2.2⟩

/-- Replacing the entries matching `updated.id` by `updated` leaves the
list of identifiers unchanged. -/
theorem ids_map_replace (l : List Session) (updated : Session) :
    (l.map (fun s => if s.id = updated.id then updated else s)).map
        Session.id
      = l.map Session.id := by
  induction l with
  | nil => rfl
  | cons a t ih =>
    simp only [List.map_cons, ih]
    by_cases h : a.id = updated.id
    · simp [h]
    · simp [h]

/-- One save/delete operation preserves distinctness of the stored
identifiers, given the backend's id-uniqueness contract for creates. -/
theorem applyOp_nodup (st : MState) (op : SMOp) (hf : FreshOk st op)
    (h : (st.sessions.map Session.id).Nodup) :
    ((applyOp st op).sessions.map Session.id).Nodup := by
  cases op with
  | save u d r =>
    cases u with
    | none => exact h
    | some e =>
      by_cases he : e = ""
      · subst he
        exact h
      · cases r with
        | error err =>
          have h1 := (handleSaveSession_error e he st d err).1
          show (((handleSaveSession (some e) st d
            (Except.error err)).1.sessions).map Session.id).Nodup
          rw [h1]
          exact h
        | ok created =>
          cases hd : d.id with
          | none =>
            have hid : d.idTruthy = false := by
              simp [Session.idTruthy, hd]
            have hfresh : created.id ∉ st.sessions.map Session.id :=
              hf ((emailTruthy_some_iff e).2 he) hid
            show (((handleSaveSession (some e) st d
              (Except.ok created)).1.sessions).map Session.id).Nodup
            rw [handleSaveSession_create_ok e he st d hid created]
            exact List.nodup_cons.2 ⟨hfresh, h⟩
          | some n =>
            by_cases hn : n = 0
            · subst hn
              have hid : d.idTruthy = false := by
                simp [Session.idTruthy, hd]
              have hfresh : created.id ∉ st.sessions.map Session.id :=
                hf ((emailTruthy_some_iff e).2 he) hid
              show (((handleSaveSession (some e) st d
                (Except.ok created)).1.sessions).map Session.id).Nodup
              rw [handleSaveSession_create_ok e he st d hid created]
              exact List.nodup_cons.2 ⟨hfresh, h⟩
            · show (((handleSaveSession (some e) st d
                (Except.ok created)).1.sessions).map Session.id).Nodup
              rw [handleSaveSession_update_ok e he st d n hd hn created]
              show ((st.sessions.map
                (fun s => if s.id = created.id then created else s)).map
                  Session.id).Nodup
              rw [ids_map_replace]
              exact h
  | delete u i r =>
    cases u with
    | none => exact h
    | some e =>
      by_cases he : e = ""
      · subst he
        exact h
      · cases r with
        | error err =>
          show (((handleDeleteSession (some e) st i
            (Except.error err)).1.sessions).map Session.id).Nodup
          rw [handleDeleteSession_error e he st i err]
          exact h
        | ok u0 =>
          cases u0
          show (((handleDeleteSession (some e) st i
            (Except.ok ())).1.sessions).map Session.id).Nodup
          rw [handleDeleteSession_ok e he st i]
          have hsub :
              List.Sublist
                ((st.sessions.filter (fun s => s.id ≠ some i)).map
                  Session.id)
                (st.sessions.map Session.id) :=
            List.Sublist.map Session.id (List.filter_sublist st.sessions)
          exact List.Nodup.sublist hsub h

/-- C2: along every sequence of create/update/delete operations applied
through `handleSaveSession` and `handleDeleteSession` (with the
backend's contract that a successful create returns an identifier not
already in the list), a list with pairwise-distinct identifiers never
acquires two sessions with the same identifier. -/
theorem c2_ids_nodup_invariant {st st' : MState} (h : Reach st st')
    (h0 : (st.sessions.map Session.id).Nodup) :
    (st'.sessions.map Session.id).Nodup := by
  induction h with
  | refl => exact h0
  | step op _ hf ih => exact applyOp_nodup _ op hf ih

/-- C2 witness: a concrete three-step trace (create, update, delete)
from the empty store keeps the identifiers distinct. -/
theorem c2_ids_nodup_invariant_witness :
    ((((MState.mk none [] false none).sessions).map Session.id).Nodup)
    ∧ (((applyOp
          (applyOp
            (applyOp ⟨none, [], false, none⟩
              (SMOp.save (some "u@x") ⟨none, "draft"⟩
                (Except.ok ⟨some 1, "A"⟩)))
            (SMOp.save (some "u@x") ⟨some 1, "edit"⟩
              (Except.ok ⟨some 1, "A2"⟩)))
          (SMOp.delete (some "u@x") 1 (Except.ok ()))).sessions).map
        Session.id).Nodup := by
  refine ⟨by decide, ?_⟩
  exact c2_ids_nodup_invariant
    (Reach.step (SMOp.delete (some "u@x") 1 (Except.ok ()))
      (Reach.step (SMOp.save (some "u@x") ⟨some 1, "edit"⟩
          (Except.ok ⟨some 1, "A2"⟩))
        (Reach.step (SMOp.save (some "u@x") ⟨none, "draft"⟩
            (Except.ok ⟨some 1, "A"⟩))
          (Reach.refl ⟨none, [], false, none⟩)
          (by intro _ _; simp))
        (by intro _ hid; simp [Session.idTruthy] at hid))
      (by trivial))
    (by decide)
